import Mathlib

/-!
Verification of `signalCounter.c` (graze/signal-counter).

Shallow embedding of the governing revision of `signalCounter.c`: the
edge-qualification interrupt handler `signalIsr`, the durable append
`fileRecordSignalCount`, and the delivery worker `processCountFile` with its
rotation (`fileMoveCountToSwap`) and transport (`requestPostCsv`) phases.

Machine integers (`unsigned long long`) are modelled as `Nat` reduced
modulo `2 ^ 64` exactly where the C performs 64-bit arithmetic.  External
effects (the curl transport, `rename`, `remove`) are modelled by boolean
oracle inputs saying whether the call succeeds, and every externally visible
call is recorded in a trace.
-/

namespace SignalCounter

/-- `TRIGGER_INTERVAL_MS` from the source: number of ms the signal must dwell
high before counting as an actual hit. -/
def TRIGGER_INTERVAL_MS : Nat := 300

/-- Modulus of C `unsigned long long` values. -/
def U64 : Nat := 2 ^ 64

/-- The C expression `a - b` on `unsigned long long` operands (both already
reduced below `U64`): subtraction wraps modulo `2 ^ 64`. -/
def usub64 (a b : Nat) : Nat := (a + (U64 - b)) % U64

/-- One invocation of `signalIsr`.  `mem` is the static
`interruptTimeMsRising`, `level` is `digitalRead(PIN_INPUT) == 1`, and `t` is
the computed `interruptTimeMs` (reduced into the `unsigned long long` range on
entry).  Returns the new `interruptTimeMsRising` together with the timestamp
passed to `fileRecordSignalCount` when a signal is recorded. -/
def signalIsr (mem : Nat) (level : Bool) (t : Nat) : Nat × Option Nat :=
  let interruptTimeMs := t % U64
  if level then
    (interruptTimeMs, none)
  else if mem = 0 then
    (mem, none)
  else
    let intervalTimeMs := usub64 interruptTimeMs mem
    if intervalTimeMs < TRIGGER_INTERVAL_MS then
      (0, none)
    else
      (0, some interruptTimeMs)

/-- Run `signalIsr` over a whole sequence of (level, timestamp) notifications,
collecting the recorded event timestamps in order. -/
def processSeq (mem : Nat) : List (Bool × Nat) → Nat × List Nat
  | [] => (mem, [])
  | (lvl, t) :: rest =>
    let p := signalIsr mem lvl t
    let r := processSeq p.1 rest
    (r.1, p.2.toList ++ r.2)

/-- `fileRecordSignalCount(interruptTimeMs)`: appends the decimal rendering of
`interruptTimeMs / 1000` (ms converted to whole seconds) followed by a newline
to the active slot, creating the file when absent. -/
def fileRecordSignalCount (interruptTimeMs : Nat) (active : Option String) :
    Option String :=
  some ((active.getD "") ++ toString (interruptTimeMs / 1000) ++ "\n")

/-- In-memory edge state together with the active-slot file contents. -/
structure CaptureState where
  interruptTimeMsRising : Nat
  active : Option String
deriving DecidableEq

/-- One `signalIsr` invocation including its durable append side effect. -/
def captureStep (s : CaptureState) (input : Bool × Nat) : CaptureState :=
  let p := signalIsr s.interruptTimeMsRising input.1 input.2
  match p.2 with
  | none => { s with interruptTimeMsRising := p.1 }
  | some tf =>
    { interruptTimeMsRising := p.1, active := fileRecordSignalCount tf s.active }

/-- Fold `captureStep` over a sequence of notifications. -/
def captureRun (s : CaptureState) (inputs : List (Bool × Nat)) : CaptureState :=
  inputs.foldl captureStep s

/-! ## Delivery worker: filesystem state, transport, `processCountFile` -/

/-- The two durable queue slots: `active` is the contents at
`PATH_SIGNAL_COUNT`, `pending` the contents at `PATH_SIGNAL_COUNT_SWAP`;
`none` means the file does not exist. -/
structure FsState where
  active : Option String
  pending : Option String
deriving DecidableEq

/-- Process-visible state touched by `processCountFile`: the single-flight
guard `isProcessingCountFile`, the two slots, and the device identifier read
from `PATH_MAC_ADDRESS_ETH0` (external, never written by this program). -/
structure World where
  isProcessingCountFile : Bool
  fs : FsState
  mac : String
deriving DecidableEq

/-- Externally visible calls made by one `processCountFile` invocation:
every transport POST with its `(macAddress, csv)` fields, the number of
`rename` calls and the number of `remove` calls attempted. -/
structure Trace where
  posts : List (String × String)
  renameCalls : Nat
  deleteCalls : Nat
deriving DecidableEq

/-- The empty trace: no transport, rename or delete calls. -/
def Trace.empty : Trace := ⟨[], 0, 0⟩

/-- `requestPostCsv(macAddress, csv)`.  `curlInitOk` models
`curl_easy_init()` returning a non-NULL handle, `transportOk` models
`curl_easy_perform` returning `CURLE_OK`.  Returns the C return value
together with the transport calls actually made.  Note the source returns
`0` (success) when `curl_easy_init` fails, having made no request at all. -/
def requestPostCsv (curlInitOk transportOk : Bool) (macAddress csv : String) :
    Int × List (String × String) :=
  if curlInitOk then
    if transportOk then (0, [(macAddress, csv)])
    else (-1, [(macAddress, csv)])
  else (0, [])

/-- Result of the rotation phase of `processCountFile`. -/
inductive RotateOutcome
  | proceed
  | nothingToProcess
  | renameFailed
deriving DecidableEq

/-- The rotation phase of `processCountFile` (the `fileSwapFileExists` /
`fileCountFileExists` checks and the `fileMoveCountToSwap` rename).
`renameOk` models whether the `rename(2)` call succeeds; a failed rename
leaves both paths unchanged.  Returns the updated slots, which exit the
control flow takes, and how many rename calls were made. -/
def rotatePhase (renameOk : Bool) (fs : FsState) :
    FsState × RotateOutcome × Nat :=
  if fs.pending.isNone then
    if fs.active.isNone then
      (fs, RotateOutcome.nothingToProcess, 0)
    else if renameOk then
      ({ active := none, pending := fs.active }, RotateOutcome.proceed, 1)
    else
      (fs, RotateOutcome.renameFailed, 1)
  else
    (fs, RotateOutcome.proceed, 0)

/-- The send phase of `processCountFile`: read the device identifier and the
swap-file contents, call `requestPostCsv`, and on a non-negative return value
attempt to `remove` the swap file (`deleteOk` models that call succeeding).
Every exit clears the single-flight guard. -/
def sendPhase (curlInitOk transportOk deleteOk : Bool) (w : World)
    (renameCalls : Nat) : World × Trace :=
  let macAddress := w.mac
  let csv := w.fs.pending.getD ""
  let r := requestPostCsv curlInitOk transportOk macAddress csv
  if r.1 < 0 then
    ({ w with isProcessingCountFile := false }, ⟨r.2, renameCalls, 0⟩)
  else if deleteOk then
    ({ w with fs := { w.fs with pending := none }, isProcessingCountFile := false },
      ⟨r.2, renameCalls, 1⟩)
  else
    ({ w with isProcessingCountFile := false }, ⟨r.2, renameCalls, 1⟩)

/-- One invocation of `processCountFile`: the re-entrancy check on the
single-flight guard, the rotation phase, then the send phase.  Oracle inputs
give the outcome of each external call the invocation makes. -/
def processCountFile (curlInitOk transportOk renameOk deleteOk : Bool)
    (w : World) : World × Trace :=
  if w.isProcessingCountFile then
    (w, Trace.empty)
  else
    let w1 := { w with isProcessingCountFile := true }
    let rp := rotatePhase renameOk w1.fs
    let w2 := { w1 with fs := rp.1 }
    match rp.2.1 with
    | RotateOutcome.proceed => sendPhase curlInitOk transportOk deleteOk w2 rp.2.2
    | RotateOutcome.nothingToProcess =>
      ({ w2 with isProcessingCountFile := false }, Trace.empty)
    | RotateOutcome.renameFailed =>
      ({ w2 with isProcessingCountFile := false }, ⟨[], rp.2.2, 0⟩)

/-! ## Spec-side characterization of the edge qualifier -/

/-- The value of `interruptTimeMsRising` determined by the notification just
processed: a rising notification stores its timestamp, everything else leaves
the memory cleared (`0`). -/
def memOf (p : Bool × Nat) : Nat := if p.1 then p.2 else 0

/-- Spec-side description of the emitted events: the falling timestamps of
adjacent rising/falling pairs whose rising timestamp is nonzero and whose
dwell — as the source computes it, the 64-bit wrapped difference
`usub64 falling rising` — reaches `TRIGGER_INTERVAL_MS`.  For monotone
timestamps the wrapped difference coincides with the arithmetic dwell
(`usub64_eq`); for a falling edge earlier than its rising edge it wraps to a
huge value. -/
def qualifyingEvents : List (Bool × Nat) → List Nat
  | [] => []
  | [_] => []
  | a :: b :: rest =>
    (if a.1 = true ∧ b.1 = false ∧ a.2 ≠ 0 ∧ TRIGGER_INTERVAL_MS ≤ usub64 b.2 a.2
      then [b.2] else [])
      ++ qualifyingEvents (b :: rest)

/-! ## Helper lemmas -/

lemma usub64_eq {a b : Nat} (hba : b ≤ a) (ha : a < U64) : usub64 a b = a - b := by
  have hU : U64 = 18446744073709551616 := by norm_num [U64]
  simp only [usub64, hU]
  omega

lemma signalIsr_rising (mem t : Nat) (ht : t < U64) :
    signalIsr mem true t = (t, none) := by
  simp [signalIsr, Nat.mod_eq_of_lt ht]

lemma signalIsr_falling_clear (mem t : Nat) (hm : mem = 0) :
    signalIsr mem false t = (0, none) := by
  simp [signalIsr, hm]

lemma signalIsr_falling {mem t : Nat} (hm : mem ≠ 0) (hle : mem ≤ t)
    (ht : t < U64) :
    signalIsr mem false t =
      if t - mem < TRIGGER_INTERVAL_MS then (0, none) else (0, some t) := by
  simp [signalIsr, Nat.mod_eq_of_lt ht, hm, usub64_eq hle ht]

lemma signalIsr_falling_wrap {mem t : Nat} (hm : mem ≠ 0) (ht : t < U64) :
    signalIsr mem false t =
      if usub64 t mem < TRIGGER_INTERVAL_MS then (0, none) else (0, some t) := by
  simp [signalIsr, Nat.mod_eq_of_lt ht, hm]

lemma qualifyingEvents_false_cons (t : Nat) (xs : List (Bool × Nat)) :
    qualifyingEvents ((false, t) :: xs) = qualifyingEvents xs := by
  cases xs with
  | nil => rfl
  | cons b rest => simp [qualifyingEvents]

/-- The events collected by folding `signalIsr` over a sequence are exactly
the qualifying adjacent rising/falling pairs, for any sequence whose
timestamps are 64-bit values and whose rising edges carry nonzero
timestamps.  The dwell is the wrapped difference `usub64`, exactly as the
source computes it, so no monotonicity of timestamps is assumed.  `prev` is
the notification processed just before the remaining sequence. -/
lemma processSeq_eq_qualifying (xs : List (Bool × Nat)) :
    ∀ prev : Bool × Nat,
      (∀ p ∈ prev :: xs, p.2 < U64) →
      (∀ p ∈ prev :: xs, p.1 = true → p.2 ≠ 0) →
      (processSeq (memOf prev) xs).2 = qualifyingEvents (prev :: xs) := by
  induction xs with
  | nil =>
    intro prev _ _
    simp [processSeq, qualifyingEvents]
  | cons hd tl ih =>
    intro prev hbound hrise
    obtain ⟨l, t⟩ := hd
    obtain ⟨pl, pt⟩ := prev
    have hboundTl : ∀ p ∈ (l, t) :: tl, p.2 < U64 := by
      intro p hp
      exact hbound p (List.mem_cons_of_mem _ hp)
    have hriseTl : ∀ p ∈ (l, t) :: tl, p.1 = true → p.2 ≠ 0 := by
      intro p hp
      exact hrise p (List.mem_cons_of_mem _ hp)
    have ht : t < U64 := hboundTl (l, t) (List.mem_cons_self _ _)
    cases l with
    | true =>
      have ihh := ih (true, t) hboundTl hriseTl
      simp only [memOf, if_pos rfl] at ihh
      simp only [processSeq, signalIsr_rising _ t ht]
      simpa [qualifyingEvents] using ihh
    | false =>
      have ihh := ih (false, t) hboundTl hriseTl
      simp only [memOf] at ihh
      norm_num at ihh
      cases pl with
      | false =>
        simp only [processSeq, memOf]
        norm_num
        rw [signalIsr_falling_clear 0 t rfl]
        simpa [qualifyingEvents] using ihh
      | true =>
        have hptne : pt ≠ 0 :=
          hrise (true, pt) (List.mem_cons_self _ _) rfl
        simp only [processSeq, memOf]
        norm_num
        rw [signalIsr_falling_wrap hptne ht]
        by_cases hcase : usub64 t pt < TRIGGER_INTERVAL_MS
        · have hnot : ¬ TRIGGER_INTERVAL_MS ≤ usub64 t pt := by omega
          rw [if_pos hcase]
          simpa [qualifyingEvents, hnot] using ihh
        · have hyes : TRIGGER_INTERVAL_MS ≤ usub64 t pt := by omega
          rw [if_neg hcase]
          simp only [qualifyingEvents]
          simp [hptne, hyes, ihh]

/-! ## Claim theorems -/

/-- Claim C1 (code bug): when `curl_easy_init` fails, `requestPostCsv` makes
no transport call yet returns `0` (success), so `processCountFile` deletes the
pending slot although no transport call for its contents ever returned
success: starting from a pending slot holding `"1\n"`, the run makes zero
posts and leaves both slots absent — the durably appended event is dropped
with no confirmed delivery, contradicting the claim. -/
theorem claim_c1_pending_deleted_without_transport_call :
    (processCountFile false false true true
        ⟨false, ⟨none, some "1\n"⟩, "ma"⟩).2.posts = [] ∧
    (processCountFile false false true true
        ⟨false, ⟨none, some "1\n"⟩, "ma"⟩).1.fs.pending = none ∧
    (processCountFile false false true true
        ⟨false, ⟨none, some "1\n"⟩, "ma"⟩).1.fs.active = none := by
  decide

/-- Claim C2: if the single-flight guard is already set, `processCountFile`
returns immediately with the world unchanged and an empty trace (no rotation,
no filesystem change, no transport call); moreover any single invocation
makes at most one transport call, so two invocations where the second
observes the guard set yield exactly the first invocation's (at most one)
transport call. -/
theorem claim_c2_single_flight_noop
    (curlInitOk transportOk renameOk deleteOk : Bool) (w : World)
    (h : w.isProcessingCountFile = true) :
    processCountFile curlInitOk transportOk renameOk deleteOk w = (w, Trace.empty) ∧
    ∀ v : World,
      ((processCountFile curlInitOk transportOk renameOk deleteOk v).2.posts).length ≤ 1 := by
  constructor
  · simp [processCountFile, h]
  · intro v
    obtain ⟨g, ⟨act, pend⟩, mac⟩ := v
    cases g <;> cases act <;> cases pend <;> cases curlInitOk <;> cases transportOk <;>
      cases renameOk <;> cases deleteOk <;>
      simp [processCountFile, rotatePhase, sendPhase, requestPostCsv, Trace.empty]

/-- Witness for C2 at a concrete world with the guard set. -/
theorem claim_c2_witness :
    processCountFile true true true true ⟨true, ⟨none, none⟩, "m"⟩ =
      (⟨true, ⟨none, none⟩, "m"⟩, Trace.empty) ∧
    ((processCountFile true true true true
        ⟨false, ⟨none, some "5\n"⟩, "m"⟩).2.posts).length ≤ 1 := by
  have h := claim_c2_single_flight_noop true true true true
    ⟨true, ⟨none, none⟩, "m"⟩ rfl
  exact ⟨h.1, h.2 ⟨false, ⟨none, some "5\n"⟩, "m"⟩⟩

/-- Claim C3 (counterexample): for a rising edge at 1000 ms and a falling edge
at 1350 ms with threshold 300 ms, exactly one event is recorded at 1350 ms,
but the active slot then holds `"1\n"` (the source writes
`interruptTimeMs / 1000`, i.e. whole seconds), not `"1350\n"` as claimed. -/
theorem claim_c3_counterexample :
    (processSeq 0 [(true, 1000), (false, 1350)]).2 = [1350] ∧
    (captureRun ⟨0, none⟩ [(true, 1000), (false, 1350)]).active ≠ some "1350\n" := by
  decide

/-- Claim C3 (amended): for the rising edge at 1000 ms followed by the falling
edge at 1350 ms, the edge qualifier emits exactly one event at 1350 ms and the
durable append leaves the active slot containing the byte sequence `"1\n"`
(the falling timestamp in ms integer-divided by 1000). -/
theorem claim_c3_amended :
    (processSeq 0 [(true, 1000), (false, 1350)]).2 = [1350] ∧
    (captureRun ⟨0, none⟩ [(true, 1000), (false, 1350)]).active = some "1\n" := by
  decide

/-- Claim C4 (counterexample): the claimed "for any sequence" iff fails in
both directions.  First, a rising edge at timestamp 0 followed by a falling
edge at 300 has dwell `300 - 0 ≥ TRIGGER_INTERVAL_MS`, yet no event is
emitted (the source treats a stored rising timestamp `0` as "no rising edge
recorded").  Second, a rising edge at 1000 followed by a falling edge at 500
— a negative dwell, far below the threshold — does emit an event at 500,
because the source subtracts in `unsigned long long` and the difference wraps
to nearly `2 ^ 64`. -/
theorem claim_c4_counterexample :
    ((processSeq 0 [(true, 0), (false, 300)]).2 = [] ∧
      TRIGGER_INTERVAL_MS ≤ 300 - 0) ∧
    ((processSeq 0 [(true, 1000), (false, 500)]).2 = [500] ∧
      (500 : Int) - 1000 < (TRIGGER_INTERVAL_MS : Int)) := by
  decide

/-- Claim C4 (amended): for any sequence of (level, timestamp) notifications
whose timestamps are 64-bit values and whose rising edges carry nonzero
timestamps, a SignalEvent is emitted if and only if a rising edge is
immediately followed by a falling edge whose dwell, as the source computes it
— the difference falling minus rising wrapped modulo `2 ^ 64` — is at least
`TRIGGER_INTERVAL_MS`, and the emitted events are exactly the falling
timestamps of the qualifying pairs, one event per pair.  No ordering of the
timestamps is assumed. -/
theorem claim_c4_debounce_iff (xs : List (Bool × Nat))
    (hbound : ∀ p ∈ xs, p.2 < U64)
    (hrise : ∀ p ∈ xs, p.1 = true → p.2 ≠ 0) :
    (processSeq 0 xs).2 = qualifyingEvents xs := by
  cases xs with
  | nil => simp [processSeq, qualifyingEvents]
  | cons hd tl =>
    have hb : ∀ p ∈ ((false, 0) : Bool × Nat) :: hd :: tl, p.2 < U64 := by
      intro p hp
      rcases List.mem_cons.mp hp with h | h
      · subst h
        norm_num [U64]
      · exact hbound p h
    have hr : ∀ p ∈ ((false, 0) : Bool × Nat) :: hd :: tl, p.1 = true → p.2 ≠ 0 := by
      intro p hp
      rcases List.mem_cons.mp hp with h | h
      · subst h
        intro hfalse
        cases hfalse
      · exact hrise p h
    have h := processSeq_eq_qualifying (hd :: tl) (false, 0) hb hr
    simpa [memOf, qualifyingEvents_false_cons] using h

/-- Witness for C4 at the concrete sequence rising 1000 / falling 1350. -/
theorem claim_c4_witness :
    (processSeq 0 [(true, 1000), (false, 1350)]).2 =
      qualifyingEvents [(true, 1000), (false, 1350)] := by
  apply claim_c4_debounce_iff
  · intro p hp
    fin_cases hp <;> norm_num [U64]
  · intro p hp
    fin_cases hp <;> simp

/-- Claim C5: when the transport call fails (`curl_easy_perform` not
`CURLE_OK`), `processCountFile` leaves the pending slot holding exactly the
bytes it held just before the attempt (whether pre-existing or freshly
rotated from the active slot), clears the single-flight guard, posts that
same content once, and the next invocation posts the identical content
again. -/
theorem claim_c5_failed_transport_preserves_pending
    (renameOk deleteOk tOk2 rOk2 dOk2 : Bool) (w : World) (c : String)
    (hg : w.isProcessingCountFile = false)
    (hsrc : w.fs.pending = some c ∨
      (w.fs.pending = none ∧ w.fs.active = some c ∧ renameOk = true)) :
    (processCountFile true false renameOk deleteOk w).1.fs.pending = some c ∧
    (processCountFile true false renameOk deleteOk w).1.isProcessingCountFile = false ∧
    (processCountFile true false renameOk deleteOk w).2.posts = [(w.mac, c)] ∧
    (processCountFile true tOk2 rOk2 dOk2
        (processCountFile true false renameOk deleteOk w).1).2.posts =
      [(w.mac, c)] := by
  obtain ⟨g, ⟨act, pend⟩, mac⟩ := w
  simp only [World.isProcessingCountFile] at hg
  subst hg
  rcases hsrc with hp | ⟨hp, ha, hr⟩
  · simp only [World.fs, FsState.pending] at hp
    subst hp
    cases tOk2 <;> cases dOk2 <;>
      simp [processCountFile, rotatePhase, sendPhase, requestPostCsv]
  · simp only [World.fs, FsState.pending, FsState.active] at hp ha
    subst hp
    subst ha
    subst hr
    cases tOk2 <;> cases dOk2 <;>
      simp [processCountFile, rotatePhase, sendPhase, requestPostCsv]

/-- Witness for C5: a failed transport on a pre-existing pending slot
holding `"7\n"`. -/
theorem claim_c5_witness :
    (processCountFile true false true true
        ⟨false, ⟨none, some "7\n"⟩, "m"⟩).1.fs.pending = some "7\n" ∧
    (processCountFile true false true true
        ⟨false, ⟨none, some "7\n"⟩, "m"⟩).1.isProcessingCountFile = false ∧
    (processCountFile true false true true
        ⟨false, ⟨none, some "7\n"⟩, "m"⟩).2.posts = [("m", "7\n")] ∧
    (processCountFile true true true true
        (processCountFile true false true true
          ⟨false, ⟨none, some "7\n"⟩, "m"⟩).1).2.posts = [("m", "7\n")] :=
  claim_c5_failed_transport_preserves_pending true true true true true
    ⟨false, ⟨none, some "7\n"⟩, "m"⟩ "7\n" rfl (Or.inl rfl)

/-- Claim C6: the rotation phase is a no-op leaving both slots unchanged and
making no rename call when a pending slot exists; it performs no rotation
when neither slot exists; and otherwise (active present, pending absent,
rename succeeding) it moves the active slot's exact content to the pending
slot in a single rename, leaving the active slot absent. -/
theorem claim_c6_rotator_cases (renameOk : Bool) (fs : FsState) :
    (fs.pending.isSome →
      rotatePhase renameOk fs = (fs, RotateOutcome.proceed, 0)) ∧
    (fs.pending = none → fs.active = none →
      rotatePhase renameOk fs = (fs, RotateOutcome.nothingToProcess, 0)) ∧
    (∀ a, fs.pending = none → fs.active = some a → renameOk = true →
      rotatePhase renameOk fs = (⟨none, some a⟩, RotateOutcome.proceed, 1)) := by
  obtain ⟨act, pend⟩ := fs
  cases pend <;> cases act <;> cases renameOk <;> simp [rotatePhase]

/-- Witness for C6: rotating a world with active `"5\n"` and no pending slot
moves the content wholesale into the pending slot. -/
theorem claim_c6_witness :
    rotatePhase true ⟨some "5\n", none⟩ =
      (⟨none, some "5\n"⟩, RotateOutcome.proceed, 1) :=
  (claim_c6_rotator_cases true ⟨some "5\n", none⟩).2.2 "5\n" rfl rfl rfl

/-- Claim C7: a falling edge whose dwell since the recorded rising edge is
below `TRIGGER_INTERVAL_MS` emits no event and clears the rising-timestamp
memory; consequently two consecutive sub-threshold pulses are each judged on
their own rising/falling pair and together emit no event, even when they
span more than `TRIGGER_INTERVAL_MS` overall. -/
theorem claim_c7_short_pulse_independent (mem t t1 t2 t3 t4 : Nat)
    (hm : mem ≠ 0) (hmt : mem ≤ t) (ht : t < U64)
    (hdwell : t - mem < TRIGGER_INTERVAL_MS)
    (h1 : t1 ≠ 0) (h3 : t3 ≠ 0)
    (h12 : t1 ≤ t2) (h23 : t2 ≤ t3) (h34 : t3 ≤ t4) (h4 : t4 < U64)
    (hp1 : t2 - t1 < TRIGGER_INTERVAL_MS) (hp2 : t4 - t3 < TRIGGER_INTERVAL_MS) :
    signalIsr mem false t = (0, none) ∧
    (processSeq 0 [(true, t1), (false, t2), (true, t3), (false, t4)]).2 = [] := by
  constructor
  · rw [signalIsr_falling hm hmt ht, if_pos hdwell]
  · have hU : (0 : Nat) < U64 := by norm_num [U64]
    have hb : ∀ p ∈ [((false, 0) : Bool × Nat), (true, t1), (false, t2),
        (true, t3), (false, t4)], p.2 < U64 := by
      intro p hp
      fin_cases hp <;> omega
    have hr : ∀ p ∈ [((false, 0) : Bool × Nat), (true, t1), (false, t2),
        (true, t3), (false, t4)], p.1 = true → p.2 ≠ 0 := by
      intro p hp
      fin_cases hp <;> simp_all
    have h := processSeq_eq_qualifying
      [(true, t1), (false, t2), (true, t3), (false, t4)] (false, 0) hb hr
    rw [show memOf ((false, 0) : Bool × Nat) = 0 from rfl] at h
    rw [h, qualifyingEvents_false_cons]
    have e1 : usub64 t2 t1 = t2 - t1 := usub64_eq h12 (by omega)
    have e2 : usub64 t4 t3 = t4 - t3 := usub64_eq h34 h4
    have hn1 : ¬ TRIGGER_INTERVAL_MS ≤ usub64 t2 t1 := by
      rw [e1]
      omega
    have hn2 : ¬ TRIGGER_INTERVAL_MS ≤ usub64 t4 t3 := by
      rw [e2]
      omega
    simp [qualifyingEvents, hn1, hn2]

/-- Witness for C7: a 100 ms pulse with memory at 1000, and two consecutive
short pulses 1000–1100 and 1200–1350 that span 350 ms overall. -/
theorem claim_c7_witness :
    signalIsr 1000 false 1100 = (0, none) ∧
    (processSeq 0 [(true, 1000), (false, 1100), (true, 1200), (false, 1350)]).2 = [] := by
  apply claim_c7_short_pulse_independent <;> decide

/-- Claim C8: an invocation of `processCountFile` that proceeds past the
re-entrancy check (the guard was clear on entry) clears the single-flight
guard on every exit path — success, transport failure, rename failure, and
the early "nothing to process" return — so after any completed invocation
the guard is false, whatever the outcome of every external call. -/
theorem claim_c8_guard_cleared_on_every_exit
    (curlInitOk transportOk renameOk deleteOk : Bool) (w : World)
    (h : w.isProcessingCountFile = false) :
    (processCountFile curlInitOk transportOk renameOk deleteOk w).1.isProcessingCountFile
      = false := by
  obtain ⟨g, ⟨act, pend⟩, mac⟩ := w
  simp only [World.isProcessingCountFile] at h
  subst h
  cases act <;> cases pend <;> cases curlInitOk <;> cases transportOk <;>
    cases renameOk <;> cases deleteOk <;>
    simp [processCountFile, rotatePhase, sendPhase, requestPostCsv, Trace.empty]

/-- Witness for C8 at a concrete world with work to do and a failing rename. -/
theorem claim_c8_witness :
    (processCountFile true true false true
        ⟨false, ⟨some "3\n", none⟩, "m"⟩).1.isProcessingCountFile = false :=
  claim_c8_guard_cleared_on_every_exit true true false true
    ⟨false, ⟨some "3\n", none⟩, "m"⟩ rfl

/-- Claim C9: invoking `processCountFile` when neither the active slot nor
the pending slot exists performs no rename, delete, or transport call, leaves
the world (including both slots) unchanged, and returns with the guard
clear. -/
theorem claim_c9_idle_noop
    (curlInitOk transportOk renameOk deleteOk : Bool) (w : World)
    (hg : w.isProcessingCountFile = false)
    (ha : w.fs.active = none) (hp : w.fs.pending = none) :
    processCountFile curlInitOk transportOk renameOk deleteOk w = (w, Trace.empty) := by
  obtain ⟨g, ⟨act, pend⟩, mac⟩ := w
  simp only [World.isProcessingCountFile, World.fs, FsState.active, FsState.pending]
    at hg ha hp
  subst hg
  subst ha
  subst hp
  simp [processCountFile, rotatePhase, Trace.empty]

/-- Witness for C9 at the empty world. -/
theorem claim_c9_witness :
    processCountFile true true true true ⟨false, ⟨none, none⟩, "m"⟩ =
      (⟨false, ⟨none, none⟩, "m"⟩, Trace.empty) :=
  claim_c9_idle_noop true true true true ⟨false, ⟨none, none⟩, "m"⟩ rfl rfl rfl

/-- Claim C10: the edge qualifier uses the stored value `0` as the sentinel
for "no rising edge recorded": after processing any falling edge the
rising-timestamp memory equals `0`, and a rising edge observed at timestamp
exactly `0` leaves the sentinel in place, so the subsequent falling edge
produces no event even when its dwell meets the threshold. -/
theorem claim_c10_zero_sentinel (mem t : Nat) :
    (signalIsr mem false t).1 = 0 ∧
    (TRIGGER_INTERVAL_MS ≤ t → (processSeq mem [(true, 0), (false, t)]).2 = []) := by
  constructor
  · simp only [signalIsr]
    norm_num
    split
    · simp_all
    · split <;> rfl
  · intro _
    simp [processSeq, signalIsr]

/-- Witness for C10 with memory 5 and a falling edge at 300 ms (dwell from a
rising edge at 0 would be exactly the threshold). -/
theorem claim_c10_witness :
    (signalIsr 5 false 300).1 = 0 ∧
    (processSeq 5 [(true, 0), (false, 300)]).2 = [] :=
  ⟨(claim_c10_zero_sentinel 5 300).1,
    (claim_c10_zero_sentinel 5 300).2 (by decide)⟩

end SignalCounter
